import Mathlib

/-!
Shallow embedding of `app/main.py` of the degree-verifier service.

The service has two endpoints: `GET /` (a constant status payload) and
`POST /upload` (validate the filename, stage the uploaded bytes to a
temp file, preprocess the image with OpenCV, run EasyOCR, clean up the
temp files, return the recognized text).

External effects (filesystem, OpenCV decoding, the OCR engine, and the
points where Python code can raise) are modelled by an explicit
environment `Env` of oracles and by threading a filesystem (a list of
existing paths) plus an event trace through the handler.  Pixel-level
behaviour of the OpenCV calls is modelled separately as pure functions
on pixel matrices, following OpenCV's documented semantics:
`cvtColor(BGR2GRAY)` is the fixed-point luma transform and
`threshold(src, t, maxval, THRESH_BINARY)` maps a pixel `v` to `maxval`
when `v > t` (strictly) and to `0` otherwise.
-/

namespace DegreeVerifier

/-! ## Pixel-level model of the OpenCV calls in `preprocess_image` -/

/-- A grayscale image: rows of pixel values on the 0..255 scale. -/
abbrev Gray := List (List Nat)

/-- A color image as decoded by `cv2.imread(..., IMREAD_COLOR)`: rows of
(B, G, R) pixel triples. -/
abbrev Color := List (List (Nat × Nat × Nat))

/-- OpenCV's fixed-point BGR-to-gray pixel transform:
`Y = (4899 R + 9617 G + 1868 B + 2^13) >> 14` (the 0.299/0.587/0.114
luma weights, scaled by 2^14, with rounding). -/
def bgr2grayPixel : Nat × Nat × Nat → Nat
  | (b, g, r) => (4899 * r + 9617 * g + 1868 * b + 8192) / 16384

/-- `cv2.cvtColor(img, cv2.COLOR_BGR2GRAY)`. -/
def cvtColor_BGR2GRAY (img : Color) : Gray :=
  img.map (fun row => row.map bgr2grayPixel)

/-- One pixel of `cv2.threshold(src, thresh, maxval, cv2.THRESH_BINARY)`:
`dst = maxval if src > thresh else 0` (strictly greater, per OpenCV). -/
def thresholdBinaryPixel (thresh maxval v : Nat) : Nat :=
  if thresh < v then maxval else 0

/-- `cv2.threshold(img, thresh, maxval, cv2.THRESH_BINARY)` applied to a
grayscale image (the returned retval is ignored by the caller). -/
def cvThreshold_THRESH_BINARY (img : Gray) (thresh maxval : Nat) : Gray :=
  img.map (fun row => row.map (thresholdBinaryPixel thresh maxval))

/-- The pixel pipeline of `preprocess_image` on a successfully decoded
color image: grayscale conversion followed by the fixed 150/255 binary
threshold; this matrix is what `cv2.imwrite` stores. -/
def preprocess_pixels (img : Color) : Gray :=
  cvThreshold_THRESH_BINARY (cvtColor_BGR2GRAY img) 150 255

/-! ## Filenames and the extension computation -/

/-- Filenames are modelled as character lists, mirroring Python `str`
manipulation (`.lower()`, `.split(".")`). -/
abbrev Filename := List Char

/-- Python `s.lower()` on ASCII filenames. -/
def lowerStr (cs : Filename) : Filename := cs.map Char.toLower

/-- Python `s.split(".")`: split on every dot, keeping empty groups;
the empty string yields `[""]`. -/
def pySplitDot : List Char → List (List Char)
  | [] => [[]]
  | c :: rest =>
      match pySplitDot rest with
      | [] => [[]]
      | grp :: gs => if c = '.' then ([] : List Char) :: grp :: gs else (c :: grp) :: gs

/-- `file.filename.lower().split(".")[-1]` from `upload_and_ocr`. -/
def extOf (filename : Filename) : Filename :=
  (pySplitDot (lowerStr filename)).getLastD []

/-- The allow-list `["jpg", "jpeg", "png"]` from `upload_and_ocr`. -/
def allowedExts : List Filename := ["jpg".data, "jpeg".data, "png".data]

/-! ## Filesystem model -/

/-- Paths on the filesystem. -/
abbrev Path := String

/-- The filesystem: the list of currently existing paths. -/
abbrev FS := List Path

/-- `if os.path.exists(p): os.remove(p)`. -/
def osRemoveIfExists (fs : FS) (p : Path) : FS :=
  if fs.contains p then fs.filter (fun q => q != p) else fs

/-- Filesystem events, in the order they happen during a request. -/
inductive FsEvent where
  | create (p : Path)
  | remove (p : Path)
deriving DecidableEq

/-! ## Environment of external oracles for one request -/

/-- One text fragment as detected by the EasyOCR engine: bounding box,
text content and a confidence score. -/
structure Frag where
  box : List (Nat × Nat)
  content : String
  conf : Nat
deriving DecidableEq

/-- External oracles fixing, for one request, the behaviour of
`tempfile.mkstemp` (the unique base names it allocates), whether
`shutil.copyfileobj` raises while staging, whether `cv2.imread` can
decode the staged bytes, whether the `mkstemp` inside
`preprocess_image` raises, whether `reader.readtext` raises, and the
fragments the engine detects. -/
structure Env where
  tmpBase : String
  procBase : String
  copyRaises : Option String
  imreadOk : Bool
  procMkstempRaises : Option String
  readtextRaises : Option String
  engineFrags : List Frag

/-- The path `tempfile.mkstemp(suffix=".jpg")` returns inside
`preprocess_image`. -/
def Env.procPath (env : Env) : Path := env.procBase ++ ".jpg"

/-- The path `tempfile.mkstemp(suffix="." + ext)` returns in the
handler, for the validated extension of `filename`. -/
def Env.tmpPathFor (env : Env) (filename : Filename) : Path :=
  env.tmpBase ++ "." ++ String.mk (extOf filename)

/-! ## `preprocess_image` -/

/-- Result of a Python call: a returned value or a raised exception. -/
inductive PreResult where
  | ok (path : Path)
  | raised (exc : String)
deriving DecidableEq

/-- `preprocess_image(image_path)`: `cv2.imread` yields `None` when the
file is missing or undecodable, in which case the original path is
returned unchanged (the fallback).  Otherwise grayscale + threshold are
applied and the result is staged to a fresh `.jpg` scratch file whose
path is returned; the `mkstemp` there may raise. -/
def preprocess_image (env : Env) (fs : FS) (image_path : Path) :
    PreResult × FS × List FsEvent :=
  if (fs.contains image_path && env.imreadOk) = false then
    (PreResult.ok image_path, fs, [])
  else
    match env.procMkstempRaises with
    | some e => (PreResult.raised e, fs, [])
    | none => (PreResult.ok env.procPath, env.procPath :: fs, [FsEvent.create env.procPath])

/-! ## `upload_and_ocr` -/

/-- The client-visible outcome of a request to `POST /upload`:
a 200 body `(filename, ocr_text)`, an `HTTPException` with status and
detail, or a raw Python exception escaping the handler (which the
framework turns into a generic 500 with no custom detail). -/
inductive Outcome where
  | ok (filename : Filename) (ocr_text : List String)
  | httpExc (status : Nat) (detail : String)
  | pyExc (exc : String)
deriving DecidableEq

/-- The handler for `POST /upload`, returning the outcome, the final
filesystem and the ordered trace of filesystem events.

Mirrors the source line by line: the two validation checks; the
`mkstemp` + `copyfileobj` staging (outside the try, so a staging
exception escapes with no cleanup); the try block running
`preprocess_image` then `reader.readtext`; the except clause wrapping
any exception in a 500 "OCR failed: ..."; and the finally block which
removes `tmp_path` if it exists and then removes `processed_path` if it
exists — when `preprocess_image` raised, `processed_path` was never
assigned, so the finally block itself raises `UnboundLocalError`, which
replaces the pending `HTTPException`. -/
def upload_and_ocr (env : Env) (fs : FS) (filename : Filename) :
    Outcome × FS × List FsEvent :=
  if filename = [] then
    (Outcome.httpExc 400 "No filename provided", fs, [])
  else
    if allowedExts.contains (extOf filename) = false then
      (Outcome.httpExc 400 "Only JPG/PNG images are supported", fs, [])
    else
      let tmp_path := env.tmpPathFor filename
      let fs1 := tmp_path :: fs
      let ev1 : List FsEvent := [FsEvent.create tmp_path]
      match env.copyRaises with
      | some e => (Outcome.pyExc e, fs1, ev1)
      | none =>
          match preprocess_image env fs1 tmp_path with
          | (PreResult.raised _, fs2, ev2) =>
              let evA := if fs2.contains tmp_path then [FsEvent.remove tmp_path] else []
              let fsA := osRemoveIfExists fs2 tmp_path
              (Outcome.pyExc "UnboundLocalError", fsA, ev1 ++ ev2 ++ evA)
          | (PreResult.ok processed_path, fs2, ev2) =>
              let outcome :=
                match env.readtextRaises with
                | some e => Outcome.httpExc 500 ("OCR failed: " ++ e)
                | none => Outcome.ok filename (env.engineFrags.map Frag.content)
              let evA := if fs2.contains tmp_path then [FsEvent.remove tmp_path] else []
              let fsA := osRemoveIfExists fs2 tmp_path
              let evB := if fsA.contains processed_path then [FsEvent.remove processed_path] else []
              let fsB := osRemoveIfExists fsA processed_path
              (outcome, fsB, ev1 ++ ev2 ++ evA ++ evB)

/-! ## `read_root` -/

/-- The body of the `GET /` response. -/
structure RootResponse where
  status : String
  message : String
deriving DecidableEq

/-- `read_root`: the constant `GET /` handler. -/
def read_root : RootResponse := ⟨"ok", "Degree Verifier API running"⟩

/-! ## Concrete request environments used by witnesses and counterexamples -/

/-- A request where the staged input decodes and everything succeeds,
with no fragments detected. -/
def c6env : Env := Env.mk "/t/u6" "/t/p6" none true none none []

/-- A request whose staging `copyfileobj` call raises. -/
def envStageRaise : Env := Env.mk "/t/us" "/t/ps" (some "OSError") true none none []

/-- A request where the `mkstemp` inside `preprocess_image` raises. -/
def envPreRaise : Env := Env.mk "/t/uq" "/t/pq" none true (some "OSError") none []

/-- A request where recognition raises. -/
def envRecogRaise : Env := Env.mk "/t/ur" "/t/pr" none true none (some "boom") []

/-- A fully successful request; the engine detects three fragments
whose texts are unsorted and contain a duplicate. -/
def envHappy : Env := Env.mk "/t/uh" "/t/ph" none true none none
  [Frag.mk [(0, 0)] "ZZ" 9, Frag.mk [(1, 1)] "AA" 8, Frag.mk [(2, 2)] "AA" 7]

/-! ## Helper lemmas -/

theorem contains_eq_false_of_not_mem {fs : FS} {p : Path} (h : p ∉ fs) :
    fs.contains p = false := by
  simpa using h

theorem filter_bne_eq_self {fs : FS} {p : Path} (h : p ∉ fs) :
    fs.filter (fun q => q != p) = fs := by
  apply List.filter_eq_self.mpr
  intro a ha
  simp only [bne_iff_ne, ne_eq, decide_eq_true_eq]
  rintro rfl
  exact h ha

theorem osRemoveIfExists_not_mem {fs : FS} {p : Path} (h : p ∉ fs) :
    osRemoveIfExists fs p = fs := by
  unfold osRemoveIfExists
  rw [contains_eq_false_of_not_mem h]
  simp

theorem osRemoveIfExists_cons_self {fs : FS} {p : Path} (h : p ∉ fs) :
    osRemoveIfExists (p :: fs) p = fs := by
  unfold osRemoveIfExists
  have hc : (p :: fs).contains p = true := by simp
  rw [hc]
  simp only [if_true]
  rw [List.filter_cons]
  simp only [bne_self_eq_false]
  simpa using filter_bne_eq_self h

theorem osRemoveIfExists_cons_cons {a p : Path} {fs : FS} (hne : a ≠ p) (h : p ∉ fs) :
    osRemoveIfExists (a :: p :: fs) p = a :: fs := by
  unfold osRemoveIfExists
  have hc : (a :: p :: fs).contains p = true := by simp
  rw [hc]
  simp only [if_true]
  rw [List.filter_cons, List.filter_cons]
  have ha : (a != p) = true := by simpa using hne
  have hp : (p != p) = false := by simp
  rw [ha, hp]
  simpa using filter_bne_eq_self h

/-! ## Claim C10 -/

/-- Claim C10: every request to `GET /` yields 200 with body exactly
status "ok" and message "Degree Verifier API running"; `read_root` is a
constant, taking no input and reading or changing no state. -/
theorem read_root_constant_response :
    read_root = RootResponse.mk "ok" "Degree Verifier API running" := rfl

/-! ## Claim C5 -/

/-- Claim C5: when the input cannot be decoded as an image
(`cv2.imread` returns `None`, because the file is absent or its bytes
are undecodable), `preprocess_image` returns the original input path
unchanged, leaves the filesystem exactly as it was (no new scratch
file, empty event trace), and raises no exception. -/
theorem preprocess_image_fallback (env : Env) (fs : FS) (p : Path)
    (h : (fs.contains p && env.imreadOk) = false) :
    preprocess_image env fs p = (PreResult.ok p, fs, []) := by
  unfold preprocess_image
  rw [if_pos h]

/-- Witness for `preprocess_image_fallback` at a concrete undecodable
input. -/
theorem preprocess_image_fallback_witness :
    preprocess_image (Env.mk "/t/u5" "/t/p5" none false none none []) ["/t/x.png"] "/t/x.png" =
      (PreResult.ok "/t/x.png", ["/t/x.png"], []) :=
  preprocess_image_fallback _ _ _ (by decide)

/-! ## Claim C6 -/

/-- Claim C6: on a decodable color image input (the input file exists
and `cv2.imread` decodes it), `preprocess_image` creates exactly one
new scratch file — at the fresh `mkstemp` path, which carries suffix
".jpg" and is distinct from the input path — returns that path, and the
matrix written there (grayscale then 150/255 binary threshold) contains
only the pixel values 0 and 255. -/
theorem preprocess_image_success (env : Env) (fs : FS) (p : Path)
    (hmem : p ∈ fs) (hok : env.imreadOk = true)
    (hmk : env.procMkstempRaises = none)
    (hfresh : env.procPath ∉ fs) :
    preprocess_image env fs p =
        (PreResult.ok env.procPath, env.procPath :: fs, [FsEvent.create env.procPath]) ∧
    env.procPath ≠ p ∧
    (∃ base, env.procPath = base ++ ".jpg") ∧
    (∀ img : Color, ∀ row ∈ preprocess_pixels img, ∀ v ∈ row, v = 0 ∨ v = 255) := by
  refine ⟨?_, ?_, ⟨env.procBase, rfl⟩, ?_⟩
  · unfold preprocess_image
    have hc : fs.contains p = true := by simpa using hmem
    rw [hc, hok, hmk]
    simp
  · intro he
    exact hfresh (he ▸ hmem)
  · intro img row hrow v hv
    unfold preprocess_pixels cvThreshold_THRESH_BINARY at hrow
    rw [List.mem_map] at hrow
    obtain ⟨r0, _, rfl⟩ := hrow
    rw [List.mem_map] at hv
    obtain ⟨u, _, rfl⟩ := hv
    unfold thresholdBinaryPixel
    split
    · right
      rfl
    · left
      rfl

/-- Witness for `preprocess_image_success` at a concrete decodable
input: one scratch file appears, at the fresh ".jpg" path. -/
theorem preprocess_image_success_witness :
    preprocess_image c6env ["/t/in.png"] "/t/in.png" =
        (PreResult.ok c6env.procPath, c6env.procPath :: ["/t/in.png"],
          [FsEvent.create c6env.procPath]) ∧
    c6env.procPath ≠ "/t/in.png" :=
  have h := preprocess_image_success c6env ["/t/in.png"] "/t/in.png"
    (by decide) rfl rfl (by decide)
  And.intro h.1 h.2.1

/-! ## Helper lemmas about validation and the post-validation run -/

theorem upload_rejects_empty (env : Env) (fs : FS) :
    upload_and_ocr env fs [] = (Outcome.httpExc 400 "No filename provided", fs, []) := by
  simp [upload_and_ocr]

theorem upload_rejects_bad_ext (env : Env) (fs : FS) (filename : Filename)
    (hne : filename ≠ []) (hext : allowedExts.contains (extOf filename) = false) :
    upload_and_ocr env fs filename =
      (Outcome.httpExc 400 "Only JPG/PNG images are supported", fs, []) := by
  unfold upload_and_ocr
  rw [if_neg hne, if_pos hext]

theorem upload_not_400_of_good_ext (env : Env) (fs : FS) (filename : Filename)
    (hext : allowedExts.contains (extOf filename) = true) :
    ∀ d, (upload_and_ocr env fs filename).1 ≠ Outcome.httpExc 400 d := by
  intro d
  have hne : filename ≠ [] := by
    rintro rfl
    exact absurd hext (by decide)
  unfold upload_and_ocr
  rw [if_neg hne, if_neg (by rw [hext]; simp)]
  rcases hcr : env.copyRaises with _ | e
  · simp only [hcr]
    rcases hp : preprocess_image env (env.tmpPathFor filename :: fs) (env.tmpPathFor filename)
      with ⟨pr, fs2, ev2⟩
    rcases pr with path | exc
    · simp only [hp]
      rcases hrt : env.readtextRaises with _ | e2
      · simp [hrt]
      · simp [hrt]
    · simp only [hp]
      simp
  · simp only [hcr]
    simp

theorem upload_outcome_of_staged (env : Env) (fs : FS) (filename : Filename)
    (hne : filename ≠ []) (hext : allowedExts.contains (extOf filename) = true)
    (hcopy : env.copyRaises = none) (hmk : env.procMkstempRaises = none) :
    (upload_and_ocr env fs filename).1 =
      (match env.readtextRaises with
        | some e => Outcome.httpExc 500 ("OCR failed: " ++ e)
        | none => Outcome.ok filename (env.engineFrags.map Frag.content)) := by
  unfold upload_and_ocr
  rw [if_neg hne, if_neg (by rw [hext]; simp)]
  simp only [hcopy]
  rcases himr : env.imreadOk with _ | _
  · have hpre : preprocess_image env (env.tmpPathFor filename :: fs) (env.tmpPathFor filename) =
        (PreResult.ok (env.tmpPathFor filename), env.tmpPathFor filename :: fs, []) := by
      unfold preprocess_image
      rw [himr]
      simp
    simp only [hpre]
  · have hpre : preprocess_image env (env.tmpPathFor filename :: fs) (env.tmpPathFor filename) =
        (PreResult.ok env.procPath, env.procPath :: env.tmpPathFor filename :: fs,
          [FsEvent.create env.procPath]) := by
      unfold preprocess_image
      rw [himr, hmk]
      simp
    simp only [hpre]

theorem upload_fs_restored (env : Env) (fs : FS) (filename : Filename)
    (hcopy : env.copyRaises = none)
    (htmp : env.tmpPathFor filename ∉ fs)
    (hproc : env.procPath ∉ fs)
    (hnep : env.procPath ≠ env.tmpPathFor filename) :
    (upload_and_ocr env fs filename).2.1 = fs := by
  by_cases h0 : filename = []
  · rw [h0, upload_rejects_empty]
  by_cases h1 : allowedExts.contains (extOf filename) = false
  · rw [upload_rejects_bad_ext env fs filename h0 h1]
  unfold upload_and_ocr
  rw [if_neg h0, if_neg h1]
  simp only [hcopy]
  rcases himr : env.imreadOk with _ | _
  · have hpre : preprocess_image env (env.tmpPathFor filename :: fs) (env.tmpPathFor filename) =
        (PreResult.ok (env.tmpPathFor filename), env.tmpPathFor filename :: fs, []) := by
      unfold preprocess_image
      rw [himr]
      simp
    simp only [hpre, osRemoveIfExists_cons_self htmp, osRemoveIfExists_not_mem htmp]
  · rcases hmk : env.procMkstempRaises with _ | e
    · have hpre : preprocess_image env (env.tmpPathFor filename :: fs) (env.tmpPathFor filename) =
          (PreResult.ok env.procPath, env.procPath :: env.tmpPathFor filename :: fs,
            [FsEvent.create env.procPath]) := by
        unfold preprocess_image
        rw [himr, hmk]
        simp
      simp only [hpre, osRemoveIfExists_cons_cons hnep htmp, osRemoveIfExists_cons_self hproc]
    · have hpre : preprocess_image env (env.tmpPathFor filename :: fs) (env.tmpPathFor filename) =
          (PreResult.raised e, env.tmpPathFor filename :: fs, []) := by
        unfold preprocess_image
        rw [himr, hmk]
        simp
      simp only [hpre, osRemoveIfExists_cons_self htmp]

/-! ## Helper lemmas about dotless filenames -/

theorem toLower_ne_dot (c : Char) (h : c ≠ '.') : Char.toLower c ≠ '.' := by
  unfold Char.toLower
  simp only []
  split
  · rename_i hc
    intro habs
    obtain ⟨h1, h2⟩ := hc
    generalize c.toNat = n at h1 h2 habs
    interval_cases n <;> exact absurd habs (by decide)
  · exact h

theorem pySplitDot_no_dot (cs : List Char) (h : ('.' : Char) ∉ cs) : pySplitDot cs = [cs] := by
  induction cs with
  | nil => rfl
  | cons c rest ih =>
      have hc : c ≠ '.' := fun he => h (he ▸ List.mem_cons_self c rest)
      have hrest : ('.' : Char) ∉ rest := fun hm => h (List.mem_cons_of_mem c hm)
      unfold pySplitDot
      rw [ih hrest]
      simp [hc]

theorem extOf_eq_lower_of_no_dot (filename : Filename) (h : ('.' : Char) ∉ filename) :
    extOf filename = lowerStr filename := by
  unfold extOf
  rw [pySplitDot_no_dot]
  · rfl
  · intro hm
    rcases List.mem_map.mp hm with ⟨c, hc, he⟩
    exact toLower_ne_dot c (fun hce => h (hce ▸ hc)) he

/-! ## Claim C1 -/

/-- Claim C1 counterexample: a validated request whose staging
(`copyfileobj`) raises creates the staged scratch file but never
deletes it — staging sits outside the try/finally, so the request
completes with the scratch file still on the filesystem and no remove
event ever emitted. -/
theorem upload_cleanup_claim_refuted :
    (upload_and_ocr envStageRaise [] "a.jpg".data).2.1 = ["/t/us.jpg"] ∧
    FsEvent.create "/t/us.jpg" ∈ (upload_and_ocr envStageRaise [] "a.jpg".data).2.2 ∧
    FsEvent.remove "/t/us.jpg" ∉ (upload_and_ocr envStageRaise [] "a.jpg".data).2.2 := by
  decide

/-- Claim C1 amended: provided staging succeeds, every scratch file
created while processing the request is deleted before the request
completes, on every exit path (fallback, preprocessing raising,
recognition raising, or success): the final filesystem equals the
initial one, so neither freshly created scratch path remains. -/
theorem upload_cleanup_when_staging_succeeds (env : Env) (fs : FS) (filename : Filename)
    (hcopy : env.copyRaises = none)
    (htmp : env.tmpPathFor filename ∉ fs)
    (hproc : env.procPath ∉ fs)
    (hnep : env.procPath ≠ env.tmpPathFor filename) :
    (upload_and_ocr env fs filename).2.1 = fs ∧
    env.tmpPathFor filename ∉ (upload_and_ocr env fs filename).2.1 ∧
    env.procPath ∉ (upload_and_ocr env fs filename).2.1 := by
  have h := upload_fs_restored env fs filename hcopy htmp hproc hnep
  refine ⟨h, ?_, ?_⟩
  · rw [h]
    exact htmp
  · rw [h]
    exact hproc

/-- Witness for `upload_cleanup_when_staging_succeeds`: a concrete
successful request leaves the filesystem as it found it. -/
theorem upload_cleanup_when_staging_succeeds_witness :
    (upload_and_ocr envHappy ["/t/keep"] "a.jpg".data).2.1 = ["/t/keep"] :=
  (upload_cleanup_when_staging_succeeds envHappy ["/t/keep"] "a.jpg".data rfl
    (by decide) (by decide) (by decide)).1

/-! ## Claim C2 -/

/-- Claim C2 counterexample: a decodable color image whose grayscale
pixel value is exactly 150 is binarized to 0 (black), not 255:
`cv2.THRESH_BINARY` with threshold 150 uses a strict comparison, so the
boundary value 150 goes to black although the claim sends it to white. -/
theorem binarization_at_150_refuted :
    cvtColor_BGR2GRAY [[(150, 150, 150)]] = [[150]] ∧
    preprocess_pixels [[(150, 150, 150)]] = [[0]] ∧
    preprocess_pixels [[(150, 150, 150)]] ≠ [[255]] := by
  decide

/-- Claim C2 amended: binarization is the strict global threshold at
150 on the 0-255 scale: a grayscale pixel of value v maps to 255
exactly when v exceeds 150 (that is, v is at least 151) and to 0
otherwise (v at most 150, including 150 itself). -/
theorem binarization_strict_threshold (img : Color) (row : List Nat) (i j v : Nat)
    (h1 : (cvtColor_BGR2GRAY img)[i]? = some row) (h2 : row[j]? = some v) :
    ((preprocess_pixels img)[i]?).bind (fun r => r[j]?) =
      some (if 150 < v then 255 else 0) := by
  unfold preprocess_pixels cvThreshold_THRESH_BINARY
  rw [List.getElem?_map, h1]
  simp only [Option.map_some', Option.some_bind]
  rw [List.getElem?_map, h2]
  rfl

/-- Witness for `binarization_strict_threshold` at a concrete image:
the pixel with grayscale value 10 is sent to 0. -/
theorem binarization_strict_threshold_witness :
    ((preprocess_pixels [[(200, 200, 200), (10, 10, 10)]])[0]?).bind (fun r => r[1]?) =
      some (if 150 < 10 then 255 else 0) :=
  binarization_strict_threshold [[(200, 200, 200), (10, 10, 10)]] [200, 10] 0 1 10
    (by decide) (by decide)

/-! ## Claim C3 -/

/-- Claim C3 counterexample: two validated requests on which the
claimed 500 with detail "OCR failed: ..." does not happen.  When
staging raises, the exception escapes unwrapped because staging sits
outside the try.  When preprocessing raises, the finally block reads
the never-assigned `processed_path` local, and the resulting
`UnboundLocalError` replaces the pending 500. -/
theorem upload_500_detail_refuted :
    (upload_and_ocr envStageRaise [] "a.jpg".data).1 = Outcome.pyExc "OSError" ∧
    (upload_and_ocr envStageRaise [] "a.jpg".data).1 ≠
      Outcome.httpExc 500 "OCR failed: OSError" ∧
    (upload_and_ocr envPreRaise [] "a.jpg".data).1 = Outcome.pyExc "UnboundLocalError" ∧
    (upload_and_ocr envPreRaise [] "a.jpg".data).1 ≠
      Outcome.httpExc 500 "OCR failed: OSError" := by
  decide

/-- Claim C3 amended: for a validated request in which staging succeeds
and preprocessing does not raise, if recognition raises then the
response is a 500 whose detail is "OCR failed: " followed by the
underlying exception message, and no partial result is returned. -/
theorem upload_500_on_recognition_failure (env : Env) (fs : FS) (filename : Filename)
    (e : String)
    (hne : filename ≠ []) (hext : allowedExts.contains (extOf filename) = true)
    (hcopy : env.copyRaises = none) (hmk : env.procMkstempRaises = none)
    (hrt : env.readtextRaises = some e) :
    (upload_and_ocr env fs filename).1 = Outcome.httpExc 500 ("OCR failed: " ++ e) := by
  rw [upload_outcome_of_staged env fs filename hne hext hcopy hmk, hrt]

/-- Witness for `upload_500_on_recognition_failure`. -/
theorem upload_500_on_recognition_failure_witness :
    (upload_and_ocr envRecogRaise [] "a.jpg".data).1 =
      Outcome.httpExc 500 ("OCR failed: " ++ "boom") :=
  upload_500_on_recognition_failure envRecogRaise [] "a.jpg".data "boom"
    (by decide) (by decide) rfl rfl rfl

/-! ## Claim C4 -/

/-- Claim C4: validation of `POST /upload`.  An empty filename yields
400 with detail "No filename provided"; a non-empty filename whose
lowercased suffix is not jpg, jpeg or png yields 400 with detail
"Only JPG/PNG images are supported"; and whenever the suffix
case-insensitively equals jpg, jpeg or png, validation passes — no 400
response of any detail is returned. -/
theorem upload_validation_rules (env : Env) (fs : FS) (filename : Filename) :
    (filename = [] →
      upload_and_ocr env fs filename = (Outcome.httpExc 400 "No filename provided", fs, [])) ∧
    (filename ≠ [] → allowedExts.contains (extOf filename) = false →
      upload_and_ocr env fs filename =
        (Outcome.httpExc 400 "Only JPG/PNG images are supported", fs, [])) ∧
    (allowedExts.contains (extOf filename) = true →
      ∀ d, (upload_and_ocr env fs filename).1 ≠ Outcome.httpExc 400 d) := by
  refine ⟨?_, ?_, ?_⟩
  · rintro rfl
    exact upload_rejects_empty env fs
  · exact upload_rejects_bad_ext env fs filename
  · exact upload_not_400_of_good_ext env fs filename

/-- Witness for `upload_validation_rules` at three concrete filenames:
empty, a .txt file, and an uppercase .PNG file. -/
theorem upload_validation_rules_witness :
    upload_and_ocr envHappy [] [] = (Outcome.httpExc 400 "No filename provided", [], []) ∧
    upload_and_ocr envHappy [] "notes.txt".data =
      (Outcome.httpExc 400 "Only JPG/PNG images are supported", [], []) ∧
    (upload_and_ocr envHappy [] "A.PNG".data).1 ≠ Outcome.httpExc 400 "nope" :=
  ⟨(upload_validation_rules envHappy [] []).1 rfl,
   (upload_validation_rules envHappy [] "notes.txt".data).2.1 (by decide) (by decide),
   (upload_validation_rules envHappy [] "A.PNG".data).2.2 (by decide) "nope"⟩

/-! ## Claim C7 -/

/-- Claim C7: a request that fails validation creates no file at any
point in time: its filesystem event trace is empty (so no create event
ever happened, before or after the 400), the filesystem is untouched,
and the outcome is a 400 error. -/
theorem upload_validation_failure_creates_no_file (env : Env) (fs : FS) (filename : Filename)
    (h : filename = [] ∨ allowedExts.contains (extOf filename) = false) :
    (upload_and_ocr env fs filename).2.2 = [] ∧
    (upload_and_ocr env fs filename).2.1 = fs ∧
    ∃ d, (upload_and_ocr env fs filename).1 = Outcome.httpExc 400 d := by
  rcases h with h | h
  · rw [h, upload_rejects_empty]
    exact ⟨rfl, rfl, "No filename provided", rfl⟩
  · by_cases h0 : filename = []
    · rw [h0, upload_rejects_empty]
      exact ⟨rfl, rfl, "No filename provided", rfl⟩
    · rw [upload_rejects_bad_ext env fs filename h0 h]
      exact ⟨rfl, rfl, "Only JPG/PNG images are supported", rfl⟩

/-- Witness for `upload_validation_failure_creates_no_file`: uploading
notes.txt emits no filesystem event and leaves the filesystem alone. -/
theorem upload_validation_failure_creates_no_file_witness :
    (upload_and_ocr envHappy [] "notes.txt".data).2.2 = [] ∧
    (upload_and_ocr envHappy [] "notes.txt".data).2.1 = [] :=
  have h := upload_validation_failure_creates_no_file envHappy [] "notes.txt".data
    (Or.inr (by decide))
  ⟨h.1, h.2.1⟩

/-! ## Claim C8 -/

/-- Claim C8: every successful request answers with exactly the pair of
the echoed (unchanged) filename and `ocr_text`, where `ocr_text` is the
text content of each engine fragment in the detection order of the
engine — not sorted, not deduplicated — with the per-fragment bounding
box and confidence discarded. -/
theorem upload_success_response (env : Env) (fs : FS) (filename : Filename)
    (hne : filename ≠ []) (hext : allowedExts.contains (extOf filename) = true)
    (hcopy : env.copyRaises = none) (hmk : env.procMkstempRaises = none)
    (hrt : env.readtextRaises = none) :
    (upload_and_ocr env fs filename).1 =
      Outcome.ok filename (env.engineFrags.map Frag.content) := by
  rw [upload_outcome_of_staged env fs filename hne hext hcopy hmk, hrt]

/-- Witness for `upload_success_response`: three fragments with texts
"ZZ", "AA", "AA" come back in that order, duplicated and unsorted, with
boxes and confidences dropped, and the filename echoed unchanged. -/
theorem upload_success_response_witness :
    (upload_and_ocr envHappy [] "cert.png".data).1 =
      Outcome.ok "cert.png".data ["ZZ", "AA", "AA"] :=
  upload_success_response envHappy [] "cert.png".data (by decide) (by decide) rfl rfl rfl

/-! ## Claim C9 -/

/-- Claim C9: for a filename containing no dot, the whole lowercased
filename is taken as the suffix.  A dotless filename whose lowercased
value is jpg, jpeg or png passes validation (no 400 of any detail is
returned), and every other dotless non-empty filename is rejected with
the 400 extension error. -/
theorem dotless_filename_whole_name_is_suffix (filename : Filename)
    (hnodot : ('.' : Char) ∉ filename) :
    extOf filename = lowerStr filename ∧
    (allowedExts.contains (lowerStr filename) = true →
      ∀ env fs d, (upload_and_ocr env fs filename).1 ≠ Outcome.httpExc 400 d) ∧
    (filename ≠ [] → allowedExts.contains (lowerStr filename) = false →
      ∀ env fs, upload_and_ocr env fs filename =
        (Outcome.httpExc 400 "Only JPG/PNG images are supported", fs, [])) := by
  have hext := extOf_eq_lower_of_no_dot filename hnodot
  refine ⟨hext, ?_, ?_⟩
  · intro h env fs d
    exact upload_not_400_of_good_ext env fs filename (by rw [hext]; exact h) d
  · intro hne h env fs
    exact upload_rejects_bad_ext env fs filename hne (by rw [hext]; exact h)

/-- Witness for `dotless_filename_whole_name_is_suffix`: the dotless
filename PNG passes validation, while the dotless filename README is
rejected with the extension error. -/
theorem dotless_filename_whole_name_is_suffix_witness :
    extOf "PNG".data = lowerStr "PNG".data ∧
    (upload_and_ocr envHappy [] "PNG".data).1 ≠ Outcome.httpExc 400 "nope" ∧
    upload_and_ocr envHappy [] "README".data =
      (Outcome.httpExc 400 "Only JPG/PNG images are supported", [], []) :=
  have h1 := dotless_filename_whole_name_is_suffix "PNG".data (by decide)
  have h2 := dotless_filename_whole_name_is_suffix "README".data (by decide)
  ⟨h1.1, h1.2.1 (by decide) envHappy [] "nope", h2.2.2 (by decide) (by decide) envHappy []⟩

end DegreeVerifier
